import Mathlib

/-!
# Verification of the curl generation / execution pipeline

Shallow embedding of the reusable logic of the repository
`shinyEazy/Automated_Visualization`:

* `agent/agent_execute_curl.py` — `execute_curl_for_task` and its `__main__`
  entry point: read + normalize `curl_command_generated.txt`, convert it with
  `uncurl`, execute the generated `requests` call, persist the response.
* `agent/agent_curl_generator.py` — `safe_read_file` (encoding fallback
  chain), the `model_information` extraction from the parsed `task.yaml`,
  and the three `re.sub` placeholder substitutions applied to the
  LLM-produced curl command.
* `agent/pipeline.py` — the `main` driver's exit-code behaviour.

External effects (the filesystem, the network, `uncurl`, the generated
`exec`, `chardet`, the YAML parser, the LLM) are modelled as explicit
parameters; the control flow around them is translated from the Python
source line by line.
-/

/-! ## JSON values and Python's `json.dumps(v, indent=4, ensure_ascii=False)`

`execute_curl_for_task` persists a decoded JSON response with
`json.dumps(json_response, indent=4, ensure_ascii=False)`.  `Json` models the
values `response.json()` can produce (numbers restricted to integers; `dict`
insertion order is the received key order, kept here as the list order).
`dumpsV` reproduces the output of `json.dumps` with those arguments:
four-space indentation per level, `", "`-free separators (`,` + newline,
`": "` between key and value), `[]`/`{}` for empty containers, and string
escaping that leaves every character at or above `0x20` other than `"` and
`\` literal — in particular non-ASCII characters are written literally. -/

inductive Json where
  | null : Json
  | bool (b : Bool) : Json
  | int (n : Int) : Json
  | str (s : String) : Json
  | arr (items : List Json) : Json
  | obj (fields : List (String × Json)) : Json
deriving Repr

/-- Lower-case hex digit, as produced by Python's `'\u%04x'` formatting. -/
def hexDigitChar (n : Nat) : Char :=
  if n < 10 then Char.ofNat (48 + n) else Char.ofNat (87 + n)

/-- Escaping of one character inside a JSON string literal, as done by
`json.encoder.py_encode_basestring` (the `ensure_ascii=False` path): only
`\`, `"` and control characters below `0x20` are escaped. -/
def escapeChar (c : Char) : List Char :=
  if c = '\\' then ['\\', '\\']
  else if c = '"' then ['\\', '"']
  else if c = '\n' then ['\\', 'n']
  else if c = '\t' then ['\\', 't']
  else if c = '\r' then ['\\', 'r']
  else if c = '\x08' then ['\\', 'b']
  else if c = '\x0c' then ['\\', 'f']
  else if c.toNat < 0x20 then
    ['\\', 'u', '0', '0', hexDigitChar (c.toNat / 16), hexDigitChar (c.toNat % 16)]
  else [c]

/-- Escape a whole string body (without the surrounding quotes). -/
def escapeChars (cs : List Char) : List Char := cs.flatMap escapeChar

/-- `indent lvl` is the indentation prefix at nesting level `lvl`:
four spaces per level (`indent=4`). -/
def indentAt (lvl : Nat) : List Char := List.replicate (4 * lvl) ' '

mutual

/-- `json.dumps(v, indent=4, ensure_ascii=False)` at nesting level `lvl`. -/
def dumpsV : Json → Nat → List Char
  | Json.null, _ => "null".toList
  | Json.bool true, _ => "true".toList
  | Json.bool false, _ => "false".toList
  | Json.int n, _ => (toString n).toList
  | Json.str s, _ => '"' :: (escapeChars s.data ++ ['"'])
  | Json.arr [], _ => ['[', ']']
  | Json.arr (j :: js), lvl =>
      '[' :: '\n' :: (indentAt (lvl + 1) ++ dumpsV j (lvl + 1) ++
        dumpsTail js (lvl + 1) ++ '\n' :: (indentAt lvl ++ [']']))
  | Json.obj [], _ => ['\x7b', '\x7d']
  | Json.obj (f :: fs), lvl =>
      '\x7b' :: '\n' :: (indentAt (lvl + 1) ++ dumpsPair f (lvl + 1) ++
        dumpsPairTail fs (lvl + 1) ++ '\n' :: (indentAt lvl ++ ['\x7d']))

/-- Remaining array items, each preceded by `,\n` and the level's indent. -/
def dumpsTail : List Json → Nat → List Char
  | [], _ => []
  | j :: js, lvl => ',' :: '\n' :: (indentAt lvl ++ dumpsV j lvl ++ dumpsTail js lvl)

/-- One `"key": value` entry of an object. -/
def dumpsPair : String × Json → Nat → List Char
  | (k, v), lvl => '"' :: (escapeChars k.data ++ '"' :: ':' :: ' ' :: dumpsV v lvl)

/-- Remaining object entries, each preceded by `,\n` and the level's indent. -/
def dumpsPairTail : List (String × Json) → Nat → List Char
  | [], _ => []
  | f :: fs, lvl => ',' :: '\n' :: (indentAt lvl ++ dumpsPair f lvl ++ dumpsPairTail fs lvl)

end

/-- The exact text `execute_curl_for_task` writes for a JSON response:
`json.dumps(v, indent=4, ensure_ascii=False)`. -/
def json_dumps (v : Json) : String := String.mk (dumpsV v 0)

/-! ## The request executor (`agent/agent_execute_curl.py`)

`execute_curl_for_task(task_name)`:

* reads `problems/<task>/curl_command_generated.txt`, normalizing it with
  `' '.join(line.strip().rstrip('\\') for line in file if line.strip())`;
  returns `False` on `FileNotFoundError` or an empty normalized command;
* converts the command with `uncurl.parse` (any exception → `False`);
* runs `exec("response = " + code)` (any exception → `False`);
* on `if response:` (the `requests.Response.__bool__` truthiness test —
  `False` for `None` and for status codes 400–599) writes either the
  pretty-printed JSON body or, on `JSONDecodeError`, the raw text, and
  returns `True`; otherwise returns `False` without writing.

The filesystem, `uncurl`, and the executed `requests` call are parameters of
the model (`ExecEnv`); file writes are modelled as the `written` component
of the outcome (the source overwrites `response.json` with that content). -/

/-- An HTTP response as seen by the executor: its status code, its raw text
(`response.text`) and the result of `response.json()` — `none` when the body
does not parse as JSON (`requests.exceptions.JSONDecodeError`). -/
structure HttpResponse where
  statusCode : Nat
  text : String
  jsonBody : Option Json

/-- `requests.Response.__bool__` returns `self.ok`, which is `False` exactly
when `raise_for_status` would raise, i.e. for status codes 400–599. -/
def HttpResponse.ok (r : HttpResponse) : Bool :=
  !(decide (400 ≤ r.statusCode) && decide (r.statusCode < 600))

/-- Outcome of `exec(python_code_with_assignment, {"requests": requests},
local_vars)` followed by `local_vars.get("response")`: either the executed
code raised, or it completed and `response` is the given value (`none`
standing for Python `None`). -/
inductive PyExecOutcome where
  | raises : PyExecOutcome
  | completes (response : Option HttpResponse) : PyExecOutcome

/-- The executor's environment: the lines of `curl_command_generated.txt`
(`none` when the file is missing), `uncurl.parse` (`none` when it raises),
and the execution of the generated code (which performs the network call). -/
structure ExecEnv where
  curlFile : Option (List (List Char))
  uncurlParse : String → Option String
  run : String → PyExecOutcome

/-- Python whitespace as stripped by `str.strip()` (the ASCII range). -/
def isPySpace (c : Char) : Bool :=
  c = ' ' || c = '\t' || c = '\n' || c = '\r' || c = '\x0b' || c = '\x0c'

/-- `line.strip()`: drop leading and trailing whitespace. -/
def pyStrip (l : List Char) : List Char :=
  ((l.dropWhile isPySpace).reverse.dropWhile isPySpace).reverse

/-- `line.rstrip('\\')`: drop trailing backslashes. -/
def pyRstripBackslash (l : List Char) : List Char :=
  (l.reverse.dropWhile (fun c => c = '\\')).reverse

/-- `' '.join(line.strip().rstrip('\\') for line in file if line.strip())`:
keep the non-blank lines, strip each and drop its trailing backslashes, and
join with single spaces. -/
def normalizeCurl (lines : List (List Char)) : List Char :=
  List.intercalate [' ']
    ((lines.filter (fun l => pyStrip l ≠ [])).map (fun l => pyRstripBackslash (pyStrip l)))

/-- What one run of the executor did: the returned boolean, whether the
generated `requests` code was executed (the network call is issued there;
the command-file and `uncurl` stages never touch the network), and the
content written to `response.json` (`none` when nothing was written). -/
structure ExecOutcome where
  success : Bool
  networkCalled : Bool
  written : Option String
deriving DecidableEq, Repr

/-- Lines 44–63 of `agent_execute_curl.py`: `response = local_vars.get("response")`
followed by `if response: ... else: return False`.  In the truthy branch,
`response.json()` success writes the pretty-printed JSON and returns `True`;
`JSONDecodeError` writes `response.text` and returns `True`.  (The file
write itself is modelled as always succeeding; the source's final
`except Exception` guards only that write.) -/
def processResponse (resp : Option HttpResponse) : Bool × Option String :=
  match resp with
  | some r =>
    if r.ok then
      match r.jsonBody with
      | some v => (true, some (json_dumps v))
      | none => (true, some r.text)
    else (false, none)
  | none => (false, none)

/-- `execute_curl_for_task`, translated stage by stage from
`agent/agent_execute_curl.py` lines 7–63. -/
def execute_curl_for_task (env : ExecEnv) : ExecOutcome :=
  match env.curlFile with
  | none => ⟨false, false, none⟩
  | some lines =>
    let cmd := normalizeCurl lines
    if cmd = [] then ⟨false, false, none⟩
    else
      match env.uncurlParse (String.mk cmd) with
      | none => ⟨false, false, none⟩
      | some code =>
        match env.run ("response = " ++ code) with
        | PyExecOutcome.raises => ⟨false, true, none⟩
        | PyExecOutcome.completes resp =>
          let pr := processResponse resp
          ⟨pr.1, true, pr.2⟩

/-! ## The two CLI entry points (claim C9)

`agent_execute_curl.py`'s `__main__` block: usage error (fewer than two
`sys.argv` entries) exits 1; otherwise the exit code reflects the boolean
returned by `execute_curl_for_task`.

`pipeline.py`'s `main`: with a task-name argument it exits 1 when the task
directory does not exist, and otherwise awaits `process_task` — whose
boolean result it discards — and falls off the end of `main`, so the
process exits 0; with no argument it processes every task and exits 0. -/

/-- Exit code of `python agent_execute_curl.py ...` (`argv` includes the
program name, as `sys.argv` does). -/
def executorCliExit (argv : List String) (env : ExecEnv) : Nat :=
  match argv with
  | _prog :: _task :: _ => if (execute_curl_for_task env).success then 0 else 1
  | _ => 1

/-- Exit code of `python pipeline.py ...`.  `taskSucceeds` abstracts
`process_task` (the per-task three-stage run); its value is bound and then
discarded, exactly as `await process_task(task_name)` is in the source. -/
def pipelineMainExit (argv : List String) (taskFolders : List String)
    (taskSucceeds : String → Bool) : Nat :=
  match argv with
  | _prog :: taskName :: _ =>
    if taskFolders.contains taskName then
      let _ := taskSucceeds taskName
      0
    else 1
  | _ => 0

/-! ## `safe_read_file` (`agent/agent_curl_generator.py` lines 9–26)

The source tries `open(..., encoding="utf-8").read()`; on
`UnicodeDecodeError` it reads the raw bytes, asks `chardet.detect` for an
encoding (falling back to the name `"latin-1"` when `detect` reports
`None`), and retries with that encoding; if that retry raises
`UnicodeDecodeError` or `LookupError` it reads with `encoding="latin-1"`,
which maps each byte `b` to the code point `b` and therefore succeeds on
every byte sequence.  The three codec oracles are parameters (`none`
standing for the caught exceptions); the final Latin-1 read is concrete.
`FileNotFoundError` is re-raised by the source; the model presupposes the
file exists and takes its raw bytes as input. -/

/-- Latin-1 (ISO-8859-1) decoding: byte `b` becomes code point `b`.  Total:
it is defined for every byte sequence. -/
def latin1_decode (raw : List Nat) : String :=
  String.mk (raw.map (fun b => Char.ofNat (b % 256)))

/-- `safe_read_file`, with the UTF-8 read, `chardet.detect` and the
detected-encoding retry as oracles over the file's raw bytes. -/
def safe_read_file (utf8Read : List Nat → Option String)
    (chardetDetect : List Nat → Option String)
    (codecRead : String → List Nat → Option String) (raw : List Nat) : String :=
  match utf8Read raw with
  | some s => s
  | none =>
    match codecRead ((chardetDetect raw).getD "latin-1") raw with
    | some s => s
    | none => latin1_decode raw

/-! ## `model_information` extraction (`agent_curl_generator.py` lines 59–62)

`task_data = yaml.safe_load(task_yaml_content)` produces an arbitrary Python
value (`PyValue` below; YAML mapping keys are modelled as strings, and the
list order of a mapping is its document order).  The source then runs
`model_info = task_data.get("model_information", {})` — `dict.get` with a
default.  Only a `dict` has `.get`: for any non-dict result (a string, a
list, a number, or `None` — what `safe_load` returns for an empty document)
the attribute access raises `AttributeError`. -/

inductive PyValue where
  | pyNone : PyValue
  | pyBool (b : Bool) : PyValue
  | pyInt (n : Int) : PyValue
  | pyStr (s : String) : PyValue
  | pyList (items : List PyValue) : PyValue
  | pyDict (entries : List (String × PyValue)) : PyValue
deriving Repr

/-- Whether a deserialized YAML value is a mapping. -/
def PyValue.isDict : PyValue → Bool
  | PyValue.pyDict _ => true
  | _ => false

/-- `task_data.get("model_information", {})`: for a mapping, the value at
the key (first occurrence) or the empty mapping; anything else raises
`AttributeError`. -/
def extract_model_info : PyValue → Except String PyValue
  | PyValue.pyDict entries =>
    Except.ok (((entries.find? (fun e => e.1 == "model_information")).map
      (fun e => e.2)).getD (PyValue.pyDict []))
  | _ => Except.error "AttributeError"

/-! ## The placeholder substitutions (`agent_curl_generator.py` lines 73–75)

```
curl_command = re.sub(r'("data"\s*:\s*")([^"]*base64[^"]*)(")',
                      rf'\1BASE64_IMAGE\3', curl_command)
curl_command = re.sub(r'"audio_data"\s*:\s*\[[^\]]*\]',
                      f'"audio_data": AUDIO_DATA', curl_command)
curl_command = re.sub(r'"sampling_rate"\s*:\s*\d+',
                      f'"sampling_rate": SAMPLING_RATE', curl_command)
```

Each pattern is deterministic, so it is embedded as a concrete matcher:
at a given position the regex matches iff the key literal is present, then
greedy `\s*`, `:`, greedy `\s*`, then

* (image) `"`, a maximal run of non-`"` characters that must contain
  `base64`, and the closing `"`; the replacement re-emits group 1 (the key,
  the original spacing and the opening quote), then the fixture, then the
  closing quote;
* (audio) `[`, a maximal run of non-`]` characters, `]`; the replacement is
  the fixed text `"audio_data": ` + fixture;
* (rate) a maximal non-empty digit run; the replacement is the fixed text
  `"sampling_rate": ` + fixture.

(`\s` and `\d` are modelled over their ASCII ranges, and the fixture is
spliced into the replacement literally — faithful to `re.sub`'s template
expansion for fixtures free of backslashes, which base64 text, an array
literal and a number are.)  `re.sub` itself scans left to right, replacing
every non-overlapping match and resuming right after each one
(`reSubFuel`; every match here spans at least one character, so a fuel of
`s.length` is enough for the scan to run to the end of the string). -/

/-- Count of leading `\s` characters (the greedy `\s*`). -/
def wsCount : List Char → Nat
  | [] => 0
  | c :: rest => if isPySpace c then wsCount rest + 1 else 0

/-- Match `lit` then `\s*` then `:` then `\s*` at the head of `s`; return
the consumed prefix and the remainder. -/
def matchKeyColon (lit : List Char) (s : List Char) : Option (List Char × List Char) :=
  if lit.isPrefixOf s then
    let s1 := s.drop lit.length
    let n1 := wsCount s1
    let s2 := s1.drop n1
    match s2 with
    | ':' :: s3 =>
      let n2 := wsCount s3
      some (lit ++ s1.take n1 ++ ':' :: s3.take n2, s3.drop n2)
    | _ => none
  else none

/-- The image pattern `("data"\s*:\s*")([^"]*base64[^"]*)(")` at the head of
`s`: on a match, the full match length and the replacement
`\1 ++ img ++ \3`. -/
def imgMatch (img : List Char) (s : List Char) : Option (Nat × List Char) :=
  match matchKeyColon "\"data\"".toList s with
  | none => none
  | some (pre, rest) =>
    match rest with
    | '"' :: rest2 =>
      let v := rest2.takeWhile (fun c => c ≠ '"')
      if v.length < rest2.length then
        if "base64".toList <:+: v then
          some (pre.length + 1 + v.length + 1, pre ++ '"' :: (img ++ ['"']))
        else none
      else none
    | _ => none

/-- The audio pattern `"audio_data"\s*:\s*\[[^\]]*\]` at the head of `s`. -/
def audioMatch (aud : List Char) (s : List Char) : Option (Nat × List Char) :=
  match matchKeyColon "\"audio_data\"".toList s with
  | none => none
  | some (pre, rest) =>
    match rest with
    | '[' :: rest2 =>
      let u := rest2.takeWhile (fun c => c ≠ ']')
      if u.length < rest2.length then
        some (pre.length + 1 + u.length + 1, "\"audio_data\": ".toList ++ aud)
      else none
    | _ => none

/-- The rate pattern `"sampling_rate"\s*:\s*\d+` at the head of `s`. -/
def rateMatch (rate : List Char) (s : List Char) : Option (Nat × List Char) :=
  match matchKeyColon "\"sampling_rate\"".toList s with
  | none => none
  | some (pre, rest) =>
    let d := rest.takeWhile Char.isDigit
    if d.length = 0 then none
    else some (pre.length + d.length, "\"sampling_rate\": ".toList ++ rate)

/-- `re.sub` scanning: at each position try the matcher; on a match emit the
replacement and resume after the match, otherwise copy one character.  The
fuel only bounds the recursion: one unit is spent per step and every step
consumes at least one character, so `reSub` below never exhausts it. -/
def reSubFuel (m : List Char → Option (Nat × List Char)) : Nat → List Char → List Char
  | 0, s => s
  | _ + 1, [] => []
  | fuel + 1, c :: rest =>
    match m (c :: rest) with
    | some (n, repl) => repl ++ reSubFuel m fuel (rest.drop (n - 1))
    | none => c :: reSubFuel m fuel rest

/-- `re.sub(pattern, repl, s)` for one of the three placeholder patterns. -/
def reSub (m : List Char → Option (Nat × List Char)) (s : List Char) : List Char :=
  reSubFuel m s.length s

/-- Line 73: the image substitution. -/
def substituteImage (img : List Char) (s : List Char) : List Char :=
  reSub (imgMatch img) s

/-- Line 74: the audio substitution. -/
def substituteAudio (aud : List Char) (s : List Char) : List Char :=
  reSub (audioMatch aud) s

/-- Line 75: the sampling-rate substitution. -/
def substituteRate (rate : List Char) (s : List Char) : List Char :=
  reSub (rateMatch rate) s

/-- Lines 73–75 in source order: image, then audio, then sampling rate. -/
def applySubstitutions (img aud rate : List Char) (s : List Char) : List Char :=
  substituteRate rate (substituteAudio aud (substituteImage img s))

/-- Number of positions of `s` at which `pat` occurs as a substring. -/
def countOcc (pat s : List Char) : Nat :=
  ((List.range (s.length + 1)).filter (fun i => pat.isPrefixOf (s.drop i))).length

/-! ## Lemmas about the `re.sub` scan and the three matchers -/

/-- A scan over a string in which the pattern matches nowhere is the
identity (whatever the fuel: fuel `0` returns the string unchanged too). -/
theorem reSubFuel_eq_self (m : List Char → Option (Nat × List Char)) :
    ∀ (fuel : Nat) (s : List Char),
    (∀ i, i < s.length → m (List.drop i s) = none) → reSubFuel m fuel s = s := by
  intro fuel
  induction fuel with
  | zero => intro s _; rfl
  | succ fuel ih =>
    intro s h
    match s with
    | [] => rfl
    | c :: rest =>
      have h0 : m (c :: rest) = none := by simpa using h 0 (by simp)
      have hrest : ∀ i, i < rest.length → m (List.drop i rest) = none := by
        intro i hi
        simpa [List.drop_succ_cons] using h (i + 1) (by simpa using Nat.succ_lt_succ hi)
      simp [reSubFuel, h0, ih rest hrest]

/-- `reSub` version of `reSubFuel_eq_self`. -/
theorem reSub_eq_self (m : List Char → Option (Nat × List Char)) (s : List Char)
    (h : ∀ i, i < s.length → m (List.drop i s) = none) : reSub m s = s :=
  reSubFuel_eq_self m s.length s h

/-- The scan copies a match-free prefix verbatim and continues behind it. -/
theorem reSubFuel_append_of_nomatch (m : List Char → Option (Nat × List Char)) :
    ∀ (a : List Char) (fuel : Nat) (t : List Char),
    (a ++ t).length ≤ fuel →
    (∀ i, i < a.length → m (List.drop i (a ++ t)) = none) →
    reSubFuel m fuel (a ++ t) = a ++ reSubFuel m (fuel - a.length) t := by
  intro a
  induction a with
  | nil => intro fuel t _ _; simp
  | cons c a ih =>
    intro fuel t hlen h
    match fuel with
    | 0 =>
      exfalso
      simp [List.length_append] at hlen
    | fuel + 1 =>
      have h0 : m (c :: (a ++ t)) = none := by simpa using h 0 (by simp)
      have ha : ∀ i, i < a.length → m (List.drop i (a ++ t)) = none := by
        intro i hi
        simpa [List.drop_succ_cons] using h (i + 1) (by simpa using Nat.succ_lt_succ hi)
      have hlen' : (a ++ t).length ≤ fuel := by
        simp [List.length_append] at hlen ⊢
        omega
      have hfuel : fuel + 1 - (c :: a).length = fuel - a.length := by
        simp
      simp only [List.cons_append, reSubFuel, List.append_eq, h0, ih fuel t hlen' ha, hfuel]

/-- One replacement step of the scan at a position where the pattern
matches (every match of the three patterns spans at least one character). -/
theorem reSubFuel_match_step (m : List Char → Option (Nat × List Char)) (fuel : Nat)
    (s : List Char) (n : Nat) (repl : List Char)
    (hm : m s = some (n, repl)) (hn : 1 ≤ n) (hs : s ≠ []) :
    reSubFuel m (fuel + 1) s = repl ++ reSubFuel m fuel (List.drop n s) := by
  match s with
  | [] => exact absurd rfl hs
  | c :: rest =>
    simp only [reSubFuel, hm]
    congr 2
    match n, hn with
    | n + 1, _ => simp [List.drop_succ_cons]

/-- Greedy `\s*` over `w ++ r`: when `w` is all whitespace and `r` does not
begin with whitespace, exactly `w` is consumed. -/
theorem wsCount_append (w : List Char) (r : List Char)
    (hw : ∀ c ∈ w, isPySpace c = true)
    (hr : ∀ c, r.head? = some c → isPySpace c = false) :
    wsCount (w ++ r) = w.length := by
  induction w with
  | nil =>
    match r with
    | [] => rfl
    | c :: r => simp [wsCount, hr c rfl]
  | cons c w ih =>
    have hc : isPySpace c = true := hw c (by simp)
    simp [wsCount, hc, ih (fun d hd => hw d (by simp [hd]))]

/-- Greedy character-class scan over `v ++ r`: when all of `v` satisfies the
class and `r` does not begin with it, exactly `v` is consumed. -/
theorem takeWhile_append_all (p : Char → Bool) (v r : List Char)
    (hv : ∀ c ∈ v, p c = true)
    (hr : ∀ c, r.head? = some c → p c = false) :
    (v ++ r).takeWhile p = v := by
  induction v with
  | nil =>
    match r with
    | [] => rfl
    | c :: r => simp [List.takeWhile_cons, hr c rfl]
  | cons c v ih =>
    simp [List.takeWhile_cons, hv c (by simp), ih (fun d hd => hv d (by simp [hd]))]

/-- A digit is not `\s`. -/
theorem isPySpace_eq_false_of_isDigit (c : Char) (h : c.isDigit = true) :
    isPySpace c = false := by
  cases hsp : isPySpace c
  · rfl
  · exfalso
    unfold isPySpace at hsp
    simp only [Bool.or_eq_true, decide_eq_true_eq] at hsp
    rcases hsp with ((((rfl | rfl) | rfl) | rfl) | rfl) | rfl <;> exact absurd h (by decide)

/-- Computation of `matchKeyColon` on its exact shape: the key literal,
whitespace, the colon, whitespace, then a non-whitespace continuation. -/
theorem matchKeyColon_eq (lit w1 w2 : List Char) (x : Char) (r : List Char)
    (hw1 : ∀ c ∈ w1, isPySpace c = true) (hw2 : ∀ c ∈ w2, isPySpace c = true)
    (hx : isPySpace x = false) :
    matchKeyColon lit (lit ++ (w1 ++ ':' :: (w2 ++ x :: r)))
      = some (lit ++ w1 ++ ':' :: w2, x :: r) := by
  have hpre : lit.isPrefixOf (lit ++ (w1 ++ ':' :: (w2 ++ x :: r))) = true :=
    List.isPrefixOf_iff_prefix.mpr (List.prefix_append _ _)
  have hd1 : List.drop lit.length (lit ++ (w1 ++ ':' :: (w2 ++ x :: r)))
      = w1 ++ ':' :: (w2 ++ x :: r) := List.drop_left _ _
  have hn1 : wsCount (w1 ++ ':' :: (w2 ++ x :: r)) = w1.length :=
    wsCount_append w1 _ hw1 (fun c hc => by cases hc; decide)
  have hd2 : List.drop w1.length (w1 ++ ':' :: (w2 ++ x :: r)) = ':' :: (w2 ++ x :: r) :=
    List.drop_left _ _
  have ht2 : List.take w1.length (w1 ++ ':' :: (w2 ++ x :: r)) = w1 := List.take_left _ _
  have hn2 : wsCount (w2 ++ x :: r) = w2.length :=
    wsCount_append w2 _ hw2 (fun c hc => by cases hc; exact hx)
  have hd3 : List.drop w2.length (w2 ++ x :: r) = x :: r := List.drop_left _ _
  have ht3 : List.take w2.length (w2 ++ x :: r) = w2 := List.take_left _ _
  simp only [matchKeyColon, hpre, if_true, hd1, hn1, hd2, hn2, hd3, ht2, ht3,
    List.append_assoc]

/-- Computation of the image matcher on a well-formed `"data"` field whose
quote-free value contains `base64`: the match spans the field up to and
including the closing quote, and the replacement re-emits group 1, the
fixture, and the closing quote. -/
theorem imgMatch_eq (img w1 w2 v b : List Char)
    (hw1 : ∀ c ∈ w1, isPySpace c = true) (hw2 : ∀ c ∈ w2, isPySpace c = true)
    (hv : ∀ c ∈ v, c ≠ '"') (hb64 : "base64".toList <:+: v) :
    imgMatch img ("\"data\"".toList ++ (w1 ++ ':' :: (w2 ++ '"' :: (v ++ '"' :: b))))
      = some (("\"data\"".toList ++ w1 ++ ':' :: w2).length + 1 + v.length + 1,
          ("\"data\"".toList ++ w1 ++ ':' :: w2) ++ '"' :: (img ++ ['"'])) := by
  have hmk := matchKeyColon_eq "\"data\"".toList w1 w2 '"' (v ++ '"' :: b) hw1 hw2 (by decide)
  have htw : (v ++ '"' :: b).takeWhile (fun c => c ≠ '"') = v :=
    takeWhile_append_all _ v _ (fun c hc => decide_eq_true (hv c hc))
      (fun c hc => by cases hc; decide)
  have hlen : v.length < (v ++ '"' :: b).length := by
    simp [List.length_append]
  simp only [imgMatch, hmk, htw, hlen, if_true, hb64]

/-- Computation of the audio matcher on a well-formed `"audio_data"` field
holding a flat bracketed array: the match spans the field up to and
including the closing bracket, and the replacement is the fixed key text
followed by the fixture. -/
theorem audioMatch_eq (aud w1 w2 u b : List Char)
    (hw1 : ∀ c ∈ w1, isPySpace c = true) (hw2 : ∀ c ∈ w2, isPySpace c = true)
    (hu : ∀ c ∈ u, c ≠ ']') :
    audioMatch aud ("\"audio_data\"".toList ++ (w1 ++ ':' :: (w2 ++ '[' :: (u ++ ']' :: b))))
      = some (("\"audio_data\"".toList ++ w1 ++ ':' :: w2).length + 1 + u.length + 1,
          "\"audio_data\": ".toList ++ aud) := by
  have hmk := matchKeyColon_eq "\"audio_data\"".toList w1 w2 '[' (u ++ ']' :: b) hw1 hw2 (by decide)
  have htw : (u ++ ']' :: b).takeWhile (fun c => c ≠ ']') = u :=
    takeWhile_append_all _ u _ (fun c hc => decide_eq_true (hu c hc))
      (fun c hc => by cases hc; decide)
  have hlen : u.length < (u ++ ']' :: b).length := by
    simp [List.length_append]
  simp only [audioMatch, hmk, htw, hlen, if_true]

/-- Computation of the rate matcher on a well-formed `"sampling_rate"` field
holding a non-empty digit run not followed by another digit: the match spans
the digit run, and the replacement is the fixed key text followed by the
fixture. -/
theorem rateMatch_eq (rate w1 w2 d b : List Char)
    (hw1 : ∀ c ∈ w1, isPySpace c = true) (hw2 : ∀ c ∈ w2, isPySpace c = true)
    (hd : ∀ c ∈ d, c.isDigit = true) (hdne : d ≠ [])
    (hb0 : ∀ c, b.head? = some c → c.isDigit = false) :
    rateMatch rate ("\"sampling_rate\"".toList ++ (w1 ++ ':' :: (w2 ++ (d ++ b))))
      = some (("\"sampling_rate\"".toList ++ w1 ++ ':' :: w2).length + d.length,
          "\"sampling_rate\": ".toList ++ rate) := by
  match d, hdne with
  | dc :: d, _ =>
    have hdc : dc.isDigit = true := hd dc (by simp)
    have hmk := matchKeyColon_eq "\"sampling_rate\"".toList w1 w2 dc (d ++ b) hw1 hw2
      (isPySpace_eq_false_of_isDigit dc hdc)
    have htw : ((dc :: d) ++ b).takeWhile Char.isDigit = dc :: d :=
      takeWhile_append_all _ (dc :: d) _ (fun c hc => hd c hc) hb0
    have hne : (dc :: d).length ≠ 0 := by simp
    simp only [List.cons_append, List.append_assoc] at htw ⊢
    simp only [rateMatch, hmk, htw, hne, if_false, ite_false]
    simp [List.append_assoc]

/-- A string consisting of a match-free prefix `a`, a region `M` matched
with replacement `R`, and a match-free suffix `b` rewrites to
`a ++ R ++ b`. -/
theorem reSub_single_match (m : List Char → Option (Nat × List Char))
    (a M b R : List Char)
    (hM : m (M ++ b) = some (M.length, R)) (hMlen : 1 ≤ M.length)
    (ha : ∀ i, i < a.length → m (List.drop i (a ++ (M ++ b))) = none)
    (hb : ∀ i, i < b.length → m (List.drop i b) = none) :
    reSub m (a ++ (M ++ b)) = a ++ (R ++ b) := by
  have hne : M ++ b ≠ [] := by
    intro h
    rw [List.append_eq_nil.mp h |>.1] at hMlen
    exact absurd hMlen (by decide)
  have hlen : (a ++ (M ++ b)).length - a.length = (M.length + b.length - 1) + 1 := by
    rw [List.length_append, List.length_append]
    omega
  unfold reSub
  rw [reSubFuel_append_of_nomatch m a _ _ (le_refl _) ha, hlen,
    reSubFuel_match_step m _ _ _ _ hM hMlen hne, List.drop_left,
    reSubFuel_eq_self m _ b hb]

/-! ## Claim theorems -/

/-- C1 (counterexample): the claim demands that every executed request whose
response body parses as JSON gets its pretty-printed body written and `True`
returned.  For a 404 response whose body *does* parse as JSON, the source's
`if response:` test is `False` (`requests.Response.__bool__` is `ok`), so
the executor returns `False` and writes nothing. -/
theorem executor_json_error_status_cex :
    (execute_curl_for_task
      ⟨some ["curl x".toList], fun s => some s,
        fun _ => PyExecOutcome.completes
          (some ⟨404, "err", some (Json.obj [("error", Json.str "x")])⟩)⟩).success = false ∧
    (execute_curl_for_task
      ⟨some ["curl x".toList], fun s => some s,
        fun _ => PyExecOutcome.completes
          (some ⟨404, "err", some (Json.obj [("error", Json.str "x")])⟩)⟩).written = none := by
  decide

/-- C1 (amended): for every executed request whose response is truthy
(status outside 400–599) and whose body parses as JSON, the executor writes
exactly `json.dumps(v, indent=4, ensure_ascii=False)` — four-space indent,
keys in received order, non-ASCII literal, per the `json_dumps` embedding —
to `response.json` and returns `True`. -/
theorem executor_writes_pretty_json :
    ∀ (env : ExecEnv) (lines : List (List Char)) (code : String) (r : HttpResponse) (v : Json),
    env.curlFile = some lines →
    normalizeCurl lines ≠ [] →
    env.uncurlParse (String.mk (normalizeCurl lines)) = some code →
    env.run ("response = " ++ code) = PyExecOutcome.completes (some r) →
    r.ok = true →
    r.jsonBody = some v →
    execute_curl_for_task env = ⟨true, true, some (json_dumps v)⟩ := by
  intro env lines code r v h1 h2 h3 h4 h5 h6
  simp [execute_curl_for_task, processResponse, h1, h2, h3, h4, h5, h6]

/-- Closed instance of `executor_writes_pretty_json`: a 200 response whose
body is the JSON object with the single key `"k"` mapped to `"héllo"`. -/
theorem executor_writes_pretty_json_witness :
    execute_curl_for_task
      ⟨some ["curl x".toList], fun s => some s,
        fun _ => PyExecOutcome.completes
          (some ⟨200, "raw", some (Json.obj [("k", Json.str "héllo")])⟩)⟩
      = ⟨true, true, some (json_dumps (Json.obj [("k", Json.str "héllo")]))⟩ :=
  executor_writes_pretty_json _ _ "curl x" _ _ rfl (by decide) rfl rfl (by decide) rfl

/-- C2 (counterexample): the claim demands that every executed request whose
response body is not JSON gets its raw text written and `True` returned.
For a 500 response with a plain-text body, the `if response:` test is
`False`, so the executor returns `False` and writes nothing. -/
theorem executor_text_error_status_cex :
    (execute_curl_for_task
      ⟨some ["curl x".toList], fun s => some s,
        fun _ => PyExecOutcome.completes (some ⟨500, "oops", none⟩)⟩).success = false ∧
    (execute_curl_for_task
      ⟨some ["curl x".toList], fun s => some s,
        fun _ => PyExecOutcome.completes (some ⟨500, "oops", none⟩)⟩).written = none := by
  decide

/-- C2 (amended): for every executed request whose response is truthy
(status outside 400–599) and whose body does not parse as JSON
(`response.json()` raises `JSONDecodeError`), the executor writes the raw
response text unmodified to the same `response.json` path and returns
`True`; the decode failure is caught, not propagated. -/
theorem executor_writes_raw_text :
    ∀ (env : ExecEnv) (lines : List (List Char)) (code : String) (r : HttpResponse),
    env.curlFile = some lines →
    normalizeCurl lines ≠ [] →
    env.uncurlParse (String.mk (normalizeCurl lines)) = some code →
    env.run ("response = " ++ code) = PyExecOutcome.completes (some r) →
    r.ok = true →
    r.jsonBody = none →
    execute_curl_for_task env = ⟨true, true, some r.text⟩ := by
  intro env lines code r h1 h2 h3 h4 h5 h6
  simp [execute_curl_for_task, processResponse, h1, h2, h3, h4, h5, h6]

/-- Closed instance of `executor_writes_raw_text`: a `text/plain` response
with body `hello` results in exactly the raw text `hello` being written and
a `True` return. -/
theorem executor_writes_raw_text_witness :
    execute_curl_for_task
      ⟨some ["curl x".toList], fun s => some s,
        fun _ => PyExecOutcome.completes (some ⟨200, "hello", none⟩)⟩
      = ⟨true, true, some "hello"⟩ :=
  executor_writes_raw_text _ _ "curl x" _ rfl (by decide) rfl rfl (by decide) rfl

/-- C3: when `curl_command_generated.txt` is missing, or when its normalized
content (strip, drop blank lines, drop trailing backslashes, join) is the
empty string, the executor returns `False` without running the generated
request code (no network call) and without writing `response.json`. -/
theorem executor_missing_or_empty_no_network :
    ∀ env : ExecEnv,
    (env.curlFile = none ∨ ∃ lines, env.curlFile = some lines ∧ normalizeCurl lines = []) →
    execute_curl_for_task env = ⟨false, false, none⟩ := by
  intro env h
  rcases h with h | ⟨lines, hl, hn⟩
  · simp [execute_curl_for_task, h]
  · simp [execute_curl_for_task, hl, hn]

/-- Closed instances of `executor_missing_or_empty_no_network`: a missing
file, and a file whose only lines are whitespace and a lone backslash. -/
theorem executor_missing_or_empty_no_network_witness :
    execute_curl_for_task ⟨none, fun _ => none, fun _ => PyExecOutcome.raises⟩
      = ⟨false, false, none⟩ ∧
    execute_curl_for_task ⟨some ["   \n".toList, "\\".toList], fun _ => none,
        fun _ => PyExecOutcome.raises⟩
      = ⟨false, false, none⟩ :=
  ⟨executor_missing_or_empty_no_network _ (Or.inl rfl),
   executor_missing_or_empty_no_network _ (Or.inr ⟨_, rfl, by decide⟩)⟩

/-- C10: a received response whose status code makes the response object
falsy (400–599, the range where `requests.Response.ok` is `False`) is
silently discarded: the executor returns `False` and writes no
`response.json`, because line 45 tests the object's truthiness, not its
presence. -/
theorem executor_falsy_response_discarded :
    ∀ (env : ExecEnv) (lines : List (List Char)) (code : String) (r : HttpResponse),
    env.curlFile = some lines →
    normalizeCurl lines ≠ [] →
    env.uncurlParse (String.mk (normalizeCurl lines)) = some code →
    env.run ("response = " ++ code) = PyExecOutcome.completes (some r) →
    400 ≤ r.statusCode →
    r.statusCode < 600 →
    execute_curl_for_task env = ⟨false, true, none⟩ := by
  intro env lines code r h1 h2 h3 h4 h5 h6
  have hok : r.ok = false := by
    simp [HttpResponse.ok, h5, h6]
  simp [execute_curl_for_task, processResponse, h1, h2, h3, h4, hok]

/-- Closed instance of `executor_falsy_response_discarded`: a 404 whose JSON
body is discarded. -/
theorem executor_falsy_response_discarded_witness :
    execute_curl_for_task
      ⟨some ["curl y".toList], fun s => some s,
        fun _ => PyExecOutcome.completes
          (some ⟨404, "nf", some (Json.str "gone")⟩)⟩
      = ⟨false, true, none⟩ :=
  executor_falsy_response_discarded _ _ "curl y" _ rfl (by decide) rfl rfl
    (by decide) (by decide)

/-- C9 (counterexample): the claim demands exit code 1 on any stage failure
for every single-task CLI invocation; but `pipeline.py` discards the
boolean returned by `process_task`, so a single-task pipeline run whose
stages fail still exits 0. -/
theorem pipeline_exit_code_cex :
    ¬ pipelineMainExit ["pipeline.py", "t1"] ["t1"] (fun _ => false) = 1 := by
  decide

/-- C9 (amended): the executor CLI exits 0 exactly when execution succeeds,
and 1 on usage error; the pipeline driver's exit code is independent of the
per-task success flag — it is 1 exactly when the named task folder does not
exist, and 0 otherwise, even when a stage fails. -/
theorem cli_exit_codes :
    ∀ (env : ExecEnv) (prog task : String) (rest : List String)
      (folders : List String) (ts ts2 : String → Bool),
    (executorCliExit (prog :: task :: rest) env = 0 ↔
      (execute_curl_for_task env).success = true) ∧
    executorCliExit [prog] env = 1 ∧
    pipelineMainExit (prog :: task :: rest) folders ts
      = pipelineMainExit (prog :: task :: rest) folders ts2 ∧
    (pipelineMainExit (prog :: task :: rest) folders ts = 1 ↔
      folders.contains task = false) ∧
    (pipelineMainExit (prog :: task :: rest) folders ts = 0 ↔
      folders.contains task = true) := by
  intro env prog task rest folders ts ts2
  refine ⟨?_, rfl, ?_, ?_, ?_⟩
  · cases h : (execute_curl_for_task env).success <;> simp [executorCliExit, h]
  · by_cases h : task ∈ folders <;> simp [pipelineMainExit, h]
  · by_cases h : task ∈ folders <;> simp [pipelineMainExit, h]
  · by_cases h : task ∈ folders <;> simp [pipelineMainExit, h]

/-- C7: for every existing configuration file, whatever its raw bytes and
whatever the UTF-8 decode, `chardet` detection and detected-encoding retry
do, `safe_read_file` returns a decoded string: a successful UTF-8 read is
returned as-is; when both the UTF-8 read and the retry fail it falls back to
Latin-1, which structurally succeeds on every byte sequence (one character
per byte — the length equation), so the loader never raises for encoding
reasons. -/
theorem safe_read_file_total :
    ∀ (utf8Read : List Nat → Option String) (chardetDetect : List Nat → Option String)
      (codecRead : String → List Nat → Option String) (raw : List Nat),
    (∃ s, safe_read_file utf8Read chardetDetect codecRead raw = s) ∧
    (∀ s, utf8Read raw = some s → safe_read_file utf8Read chardetDetect codecRead raw = s) ∧
    (utf8Read raw = none →
      codecRead ((chardetDetect raw).getD "latin-1") raw = none →
      safe_read_file utf8Read chardetDetect codecRead raw = latin1_decode raw) ∧
    (latin1_decode raw).length = raw.length := by
  intro u d c raw
  refine ⟨⟨_, rfl⟩, ?_, ?_, ?_⟩
  · intro s hs
    simp [safe_read_file, hs]
  · intro h1 h2
    simp [safe_read_file, h1, h2]
  · show (raw.map (fun b => Char.ofNat (b % 256))).length = raw.length
    exact List.length_map _ _

/-- Closed instance of `safe_read_file_total`: with the UTF-8 read and the
retry both failing on the two bytes `0x68 0xff`, the result is their
Latin-1 decoding, of length 2. -/
theorem safe_read_file_total_witness :
    safe_read_file (fun _ => none) (fun _ => none) (fun _ _ => none) [104, 255]
      = latin1_decode [104, 255] ∧
    (latin1_decode [104, 255]).length = [104, 255].length :=
  ⟨(safe_read_file_total (fun _ => none) (fun _ => none) (fun _ _ => none) [104, 255]).2.2.1
      rfl rfl,
   (safe_read_file_total (fun _ => none) (fun _ => none) (fun _ _ => none) [104, 255]).2.2.2⟩

/-- C8 (counterexample): the empty document is valid YAML and deserializes
to Python `None`, on which `task_data.get("model_information", {})` raises
`AttributeError` — the loader does not return for every valid structured
document. -/
theorem extract_model_info_non_mapping_cex :
    extract_model_info PyValue.pyNone = Except.error "AttributeError" := rfl

/-- C8 (amended): for every configuration whose decoded text deserializes
to a top-level mapping, the loader returns without raising: the value at
`model_information` (its first occurrence) when the key is present, and the
empty mapping when it is absent; a non-mapping document (such as the empty
one) makes the attribute access raise instead. -/
theorem extract_model_info_mapping :
    ∀ (entries pre post : List (String × PyValue)) (w v : PyValue),
    (∃ m, extract_model_info (PyValue.pyDict entries) = Except.ok m) ∧
    ((∀ p ∈ entries, p.1 ≠ "model_information") →
      extract_model_info (PyValue.pyDict entries) = Except.ok (PyValue.pyDict [])) ∧
    ((∀ p ∈ pre, p.1 ≠ "model_information") →
      extract_model_info (PyValue.pyDict (pre ++ ("model_information", w) :: post))
        = Except.ok w) ∧
    (v.isDict = false → extract_model_info v = Except.error "AttributeError") := by
  intro entries pre post w v
  refine ⟨⟨_, rfl⟩, ?_, ?_, ?_⟩
  · intro h
    have hf : entries.find? (fun e => e.1 == "model_information") = none := by
      rw [List.find?_eq_none]
      intro p hp
      simp [h p hp]
    simp [extract_model_info, hf]
  · intro h
    have hfpre : pre.find? (fun e => e.1 == "model_information") = none := by
      rw [List.find?_eq_none]
      intro p hp
      simp [h p hp]
    have hall : (pre ++ ("model_information", w) :: post).find?
        (fun e => e.1 == "model_information") = some ("model_information", w) := by
      rw [List.find?_append, hfpre]
      simp [List.find?_cons]
    simp [extract_model_info, hall]
  · intro h
    cases v <;> simp_all [extract_model_info, PyValue.isDict]

/-- Closed instances of `extract_model_info_mapping`: a mapping without the
key yields the empty mapping, a mapping with the key yields its value, and
a plain string (valid YAML) raises. -/
theorem extract_model_info_mapping_witness :
    extract_model_info (PyValue.pyDict [("a", PyValue.pyInt 1)])
      = Except.ok (PyValue.pyDict []) ∧
    extract_model_info
        (PyValue.pyDict ([("a", PyValue.pyInt 1)] ++ ("model_information", PyValue.pyStr "mi") :: []))
      = Except.ok (PyValue.pyStr "mi") ∧
    extract_model_info (PyValue.pyStr "hello") = Except.error "AttributeError" :=
  ⟨(extract_model_info_mapping [("a", PyValue.pyInt 1)] [] [] PyValue.pyNone PyValue.pyNone).2.1
      (by decide),
   (extract_model_info_mapping [] [("a", PyValue.pyInt 1)] [] (PyValue.pyStr "mi")
      PyValue.pyNone).2.2.1 (by decide),
   (extract_model_info_mapping [] [] [] PyValue.pyNone (PyValue.pyStr "hello")).2.2.2 rfl⟩

/-- C4 (counterexample): on the command `"data": "base64" xyz` with fixture
`xyz`, substitution rewrites the value wholesale, but the literal fixture
content appears twice in the result (once in the rewritten field and once in
the untouched suffix), so the claim's "appears exactly once" is false. -/
theorem image_substitution_not_unique_cex :
    substituteImage "xyz".toList "\"data\": \"base64\" xyz".toList
      = "\"data\": \"xyz\" xyz".toList ∧
    countOcc "xyz".toList "\"data\": \"xyz\" xyz".toList ≠ 1 :=
  ⟨by decide, by decide⟩

/-- C4 (amended): for a command decomposing as a prefix `a`, a `"data"`
field whose quote-free value `v` contains `base64`, and a suffix `b`, with
the pattern matching nowhere in `a` (viewed inside the whole command) nor
in `b`, the image substitution replaces exactly that value with the fixture
`img` — group 1 (key, original spacing, opening quote) and the closing
quote are re-emitted, and `a` and `b` are preserved verbatim — so the
fixture stands where the `base64`-marked value stood, and that value is
gone; the fixture can occur more than once in the whole result only when
the surrounding text already contains it. -/
theorem image_substitution_replaces_value :
    ∀ (img a w1 w2 v b : List Char),
    (∀ c ∈ w1, isPySpace c = true) → (∀ c ∈ w2, isPySpace c = true) →
    (∀ c ∈ v, c ≠ '"') → "base64".toList <:+: v →
    (∀ i, i < a.length → imgMatch img (List.drop i
      (a ++ ((("\"data\"".toList ++ w1 ++ ':' :: w2) ++ '"' :: (v ++ ['"'])) ++ b))) = none) →
    (∀ i, i < b.length → imgMatch img (List.drop i b) = none) →
    substituteImage img
        (a ++ ((("\"data\"".toList ++ w1 ++ ':' :: w2) ++ '"' :: (v ++ ['"'])) ++ b))
      = a ++ ((("\"data\"".toList ++ w1 ++ ':' :: w2) ++ '"' :: (img ++ ['"'])) ++ b) := by
  intro img a w1 w2 v b hw1 hw2 hv hb64 ha hb
  have hM := imgMatch_eq img w1 w2 v b hw1 hw2 hv hb64
  have hshape : (("\"data\"".toList ++ w1 ++ ':' :: w2) ++ '"' :: (v ++ ['"'])) ++ b
      = "\"data\"".toList ++ (w1 ++ ':' :: (w2 ++ '"' :: (v ++ '"' :: b))) := by
    simp [List.append_assoc]
  have hlen2 : (("\"data\"".toList ++ w1 ++ ':' :: w2) ++ '"' :: (v ++ ['"'])).length
      = ("\"data\"".toList ++ w1 ++ ':' :: w2).length + 1 + v.length + 1 := by
    simp [List.length_append]
    omega
  have key : imgMatch img ((("\"data\"".toList ++ w1 ++ ':' :: w2) ++ '"' :: (v ++ ['"'])) ++ b)
      = some ((("\"data\"".toList ++ w1 ++ ':' :: w2) ++ '"' :: (v ++ ['"'])).length,
          ("\"data\"".toList ++ w1 ++ ':' :: w2) ++ '"' :: (img ++ ['"'])) := by
    rw [hlen2, hshape]
    exact hM
  have hpos : 1 ≤ (("\"data\"".toList ++ w1 ++ ':' :: w2) ++ '"' :: (v ++ ['"'])).length := by
    simp [List.length_append]
  exact reSub_single_match (imgMatch img) a _ b _ key hpos ha hb

/-- Closed instance of `image_substitution_replaces_value`: in
`curl -d "data" : "AAbase64BB" tail` the quoted value is replaced by the
fixture `IMGDATA` and everything else is preserved. -/
theorem image_substitution_replaces_value_witness :
    substituteImage "IMGDATA".toList
        ("curl -d ".toList ++ ((("\"data\"".toList ++ [] ++ ':' :: [' ']) ++
          '"' :: ("AAbase64BB".toList ++ ['"'])) ++ " tail".toList))
      = "curl -d ".toList ++ ((("\"data\"".toList ++ [] ++ ':' :: [' ']) ++
          '"' :: ("IMGDATA".toList ++ ['"'])) ++ " tail".toList) :=
  image_substitution_replaces_value "IMGDATA".toList "curl -d ".toList [] [' ']
    "AAbase64BB".toList " tail".toList (by decide) (by decide) (by decide) (by decide)
    (by decide) (by decide)

/-- C5: for a command containing an `"audio_data"` field holding a flat
bracketed array (a prefix `a`, the field, a suffix `b`, the pattern
matching nowhere else), substitution replaces the whole field — the entire
bracketed array included — with `"audio_data": ` followed by the audio
fixture verbatim; and for a command containing a `"sampling_rate"` field
holding a digit-run literal (not followed by a further digit), substitution
replaces the numeric literal (with the key and its spacing) by
`"sampling_rate": ` followed by the rate fixture.  The surrounding text is
preserved verbatim in both cases. -/
theorem audio_and_rate_substitution :
    (∀ (aud a w1 w2 u b : List Char),
      (∀ c ∈ w1, isPySpace c = true) → (∀ c ∈ w2, isPySpace c = true) →
      (∀ c ∈ u, c ≠ ']') →
      (∀ i, i < a.length → audioMatch aud (List.drop i
        (a ++ ((("\"audio_data\"".toList ++ w1 ++ ':' :: w2) ++ '[' :: (u ++ [']'])) ++ b))) = none) →
      (∀ i, i < b.length → audioMatch aud (List.drop i b) = none) →
      substituteAudio aud
          (a ++ ((("\"audio_data\"".toList ++ w1 ++ ':' :: w2) ++ '[' :: (u ++ [']'])) ++ b))
        = a ++ (("\"audio_data\": ".toList ++ aud) ++ b)) ∧
    (∀ (rate a w1 w2 d b : List Char),
      (∀ c ∈ w1, isPySpace c = true) → (∀ c ∈ w2, isPySpace c = true) →
      (∀ c ∈ d, c.isDigit = true) → d ≠ [] →
      (b.head?.all fun c => !c.isDigit) = true →
      (∀ i, i < a.length → rateMatch rate (List.drop i
        (a ++ ((("\"sampling_rate\"".toList ++ w1 ++ ':' :: w2) ++ d) ++ b))) = none) →
      (∀ i, i < b.length → rateMatch rate (List.drop i b) = none) →
      substituteRate rate
          (a ++ ((("\"sampling_rate\"".toList ++ w1 ++ ':' :: w2) ++ d) ++ b))
        = a ++ (("\"sampling_rate\": ".toList ++ rate) ++ b)) := by
  constructor
  · intro aud a w1 w2 u b hw1 hw2 hu ha hb
    have hM := audioMatch_eq aud w1 w2 u b hw1 hw2 hu
    have hshape : (("\"audio_data\"".toList ++ w1 ++ ':' :: w2) ++ '[' :: (u ++ [']'])) ++ b
        = "\"audio_data\"".toList ++ (w1 ++ ':' :: (w2 ++ '[' :: (u ++ ']' :: b))) := by
      simp [List.append_assoc]
    have hlen2 : (("\"audio_data\"".toList ++ w1 ++ ':' :: w2) ++ '[' :: (u ++ [']'])).length
        = ("\"audio_data\"".toList ++ w1 ++ ':' :: w2).length + 1 + u.length + 1 := by
      simp [List.length_append]
      omega
    have key : audioMatch aud
        ((("\"audio_data\"".toList ++ w1 ++ ':' :: w2) ++ '[' :: (u ++ [']'])) ++ b)
        = some ((("\"audio_data\"".toList ++ w1 ++ ':' :: w2) ++ '[' :: (u ++ [']'])).length,
            "\"audio_data\": ".toList ++ aud) := by
      rw [hlen2, hshape]
      exact hM
    have hpos : 1 ≤ (("\"audio_data\"".toList ++ w1 ++ ':' :: w2) ++ '[' :: (u ++ [']'])).length := by
      simp [List.length_append]
    exact reSub_single_match (audioMatch aud) a _ b _ key hpos ha hb
  · intro rate a w1 w2 d b hw1 hw2 hd hdne hbh ha hb
    have hb0 : ∀ c, b.head? = some c → c.isDigit = false := by
      intro c hc
      have h2 := hbh
      rw [hc] at h2
      simpa using h2
    have hM := rateMatch_eq rate w1 w2 d b hw1 hw2 hd hdne hb0
    have hshape : (("\"sampling_rate\"".toList ++ w1 ++ ':' :: w2) ++ d) ++ b
        = "\"sampling_rate\"".toList ++ (w1 ++ ':' :: (w2 ++ (d ++ b))) := by
      simp [List.append_assoc]
    have hlen2 : (("\"sampling_rate\"".toList ++ w1 ++ ':' :: w2) ++ d).length
        = ("\"sampling_rate\"".toList ++ w1 ++ ':' :: w2).length + d.length :=
      List.length_append _ _
    have key : rateMatch rate
        ((("\"sampling_rate\"".toList ++ w1 ++ ':' :: w2) ++ d) ++ b)
        = some ((("\"sampling_rate\"".toList ++ w1 ++ ':' :: w2) ++ d).length,
            "\"sampling_rate\": ".toList ++ rate) := by
      rw [hlen2, hshape]
      exact hM
    have hpos : 1 ≤ (("\"sampling_rate\"".toList ++ w1 ++ ':' :: w2) ++ d).length := by
      simp [List.length_append]
    exact reSub_single_match (rateMatch rate) a _ b _ key hpos ha hb

/-- Closed instances of `audio_and_rate_substitution`: the array
`[1,2]` is replaced by the fixture `AUD`, and the literal `8000` by the
fixture `16000`, each with the surrounding text preserved. -/
theorem audio_and_rate_substitution_witness :
    substituteAudio "AUD".toList
        ("x ".toList ++ ((("\"audio_data\"".toList ++ [' '] ++ ':' :: []) ++
          '[' :: ("1,2".toList ++ [']'])) ++ " y".toList))
      = "x ".toList ++ (("\"audio_data\": ".toList ++ "AUD".toList) ++ " y".toList) ∧
    substituteRate "16000".toList
        ("q ".toList ++ ((("\"sampling_rate\"".toList ++ [] ++ ':' :: [' ']) ++
          "8000".toList) ++ ", z".toList))
      = "q ".toList ++ (("\"sampling_rate\": ".toList ++ "16000".toList) ++ ", z".toList) :=
  ⟨audio_and_rate_substitution.1 "AUD".toList "x ".toList [' '] [] "1,2".toList
      " y".toList (by decide) (by decide) (by decide) (by decide) (by decide),
   audio_and_rate_substitution.2 "16000".toList "q ".toList [] [' '] "8000".toList
      ", z".toList (by decide) (by decide) (by decide) (by decide) (by decide)
      (by decide) (by decide)⟩

/-- C6 (counterexample): the substitutions are not order-independent for
every command and fixture contents.  With the image fixture
`"audio_data": [0]` (a fixture that itself contains the audio placeholder
pattern) and command `"data": "base64"`, applying image-then-audio differs
from audio-then-image: the former rewrites the audio pattern injected by
the image fixture, the latter leaves it intact. -/
theorem substitution_order_dependent_cex :
    substituteAudio "9".toList
        (substituteImage "\"audio_data\": [0]".toList "\"data\": \"base64\"".toList)
      ≠ substituteImage "\"audio_data\": [0]".toList
        (substituteAudio "9".toList "\"data\": \"base64\"".toList) := by
  decide

/-- C6 (amended): the three substitutions are order-independent whenever at
most one of the three patterns has any match in the command and in that one
substitution's output (in particular when the fixtures do not inject the
other placeholder patterns): all six application orders then produce the
same final string.  Without such a condition the substitutions are
order-dependent, and the source fixes the order image, audio, sampling rate
(`applySubstitutions`).  Stated as three symmetric cases, one per
privileged pattern. -/
theorem substitution_order_independent_when_isolated :
    ∀ (img aud rate s : List Char),
    ((∀ i, i < s.length → audioMatch aud (List.drop i s) = none) →
     (∀ i, i < s.length → rateMatch rate (List.drop i s) = none) →
     (∀ i, i < (substituteImage img s).length →
        audioMatch aud (List.drop i (substituteImage img s)) = none) →
     (∀ i, i < (substituteImage img s).length →
        rateMatch rate (List.drop i (substituteImage img s)) = none) →
     (applySubstitutions img aud rate s = substituteImage img s ∧
      substituteAudio aud (substituteRate rate (substituteImage img s))
        = substituteImage img s ∧
      substituteRate rate (substituteImage img (substituteAudio aud s))
        = substituteImage img s ∧
      substituteAudio aud (substituteImage img (substituteRate rate s))
        = substituteImage img s ∧
      substituteImage img (substituteRate rate (substituteAudio aud s))
        = substituteImage img s ∧
      substituteImage img (substituteAudio aud (substituteRate rate s))
        = substituteImage img s)) ∧
    ((∀ i, i < s.length → imgMatch img (List.drop i s) = none) →
     (∀ i, i < s.length → rateMatch rate (List.drop i s) = none) →
     (∀ i, i < (substituteAudio aud s).length →
        imgMatch img (List.drop i (substituteAudio aud s)) = none) →
     (∀ i, i < (substituteAudio aud s).length →
        rateMatch rate (List.drop i (substituteAudio aud s)) = none) →
     (applySubstitutions img aud rate s = substituteAudio aud s ∧
      substituteImage img (substituteRate rate (substituteAudio aud s))
        = substituteAudio aud s ∧
      substituteRate rate (substituteImage img (substituteAudio aud s))
        = substituteAudio aud s ∧
      substituteImage img (substituteAudio aud (substituteRate rate s))
        = substituteAudio aud s ∧
      substituteAudio aud (substituteImage img (substituteRate rate s))
        = substituteAudio aud s ∧
      substituteAudio aud (substituteRate rate (substituteImage img s))
        = substituteAudio aud s)) ∧
    ((∀ i, i < s.length → imgMatch img (List.drop i s) = none) →
     (∀ i, i < s.length → audioMatch aud (List.drop i s) = none) →
     (∀ i, i < (substituteRate rate s).length →
        imgMatch img (List.drop i (substituteRate rate s)) = none) →
     (∀ i, i < (substituteRate rate s).length →
        audioMatch aud (List.drop i (substituteRate rate s)) = none) →
     (applySubstitutions img aud rate s = substituteRate rate s ∧
      substituteAudio aud (substituteRate rate (substituteImage img s))
        = substituteRate rate s ∧
      substituteRate rate (substituteImage img (substituteAudio aud s))
        = substituteRate rate s ∧
      substituteImage img (substituteAudio aud (substituteRate rate s))
        = substituteRate rate s ∧
      substituteAudio aud (substituteImage img (substituteRate rate s))
        = substituteRate rate s ∧
      substituteImage img (substituteRate rate (substituteAudio aud s))
        = substituteRate rate s)) := by
  intro img aud rate s
  refine ⟨?_, ?_, ?_⟩
  · intro h1 h2 h3 h4
    have e1 : substituteAudio aud s = s := reSub_eq_self _ _ h1
    have e2 : substituteRate rate s = s := reSub_eq_self _ _ h2
    have e3 : substituteAudio aud (substituteImage img s) = substituteImage img s :=
      reSub_eq_self _ _ h3
    have e4 : substituteRate rate (substituteImage img s) = substituteImage img s :=
      reSub_eq_self _ _ h4
    refine ⟨?_, ?_, ?_, ?_, ?_, ?_⟩ <;> simp [applySubstitutions, e1, e2, e3, e4]
  · intro h1 h2 h3 h4
    have e1 : substituteImage img s = s := reSub_eq_self _ _ h1
    have e2 : substituteRate rate s = s := reSub_eq_self _ _ h2
    have e3 : substituteImage img (substituteAudio aud s) = substituteAudio aud s :=
      reSub_eq_self _ _ h3
    have e4 : substituteRate rate (substituteAudio aud s) = substituteAudio aud s :=
      reSub_eq_self _ _ h4
    refine ⟨?_, ?_, ?_, ?_, ?_, ?_⟩ <;> simp [applySubstitutions, e1, e2, e3, e4]
  · intro h1 h2 h3 h4
    have e1 : substituteImage img s = s := reSub_eq_self _ _ h1
    have e2 : substituteAudio aud s = s := reSub_eq_self _ _ h2
    have e3 : substituteImage img (substituteRate rate s) = substituteRate rate s :=
      reSub_eq_self _ _ h3
    have e4 : substituteAudio aud (substituteRate rate s) = substituteRate rate s :=
      reSub_eq_self _ _ h4
    refine ⟨?_, ?_, ?_, ?_, ?_, ?_⟩ <;> simp [applySubstitutions, e1, e2, e3, e4]

/-- Closed instance of `substitution_order_independent_when_isolated`
(first case): on `"data": "base64"` with pattern-free fixtures, every
application order yields the image substitution alone. -/
theorem substitution_order_independent_when_isolated_witness :
    applySubstitutions "IMG".toList "AUD".toList "44100".toList "\"data\": \"base64\"".toList
      = substituteImage "IMG".toList "\"data\": \"base64\"".toList ∧
    substituteImage "IMG".toList
        (substituteAudio "AUD".toList
          (substituteRate "44100".toList "\"data\": \"base64\"".toList))
      = substituteImage "IMG".toList "\"data\": \"base64\"".toList :=
  ⟨((substitution_order_independent_when_isolated "IMG".toList "AUD".toList "44100".toList
      "\"data\": \"base64\"".toList).1 (by decide) (by decide) (by decide) (by decide)).1,
   ((substitution_order_independent_when_isolated "IMG".toList "AUD".toList "44100".toList
      "\"data\": \"base64\"".toList).1 (by decide) (by decide) (by decide) (by decide)).2.2.2.2.2⟩
